import Mathlib

/-
Verification of the ConnectionOpenInit wire-codec layer
(crates/ibc/src/core/ics03_connection/msgs/conn_open_init.rs).

The file embeds the raw (wire) and domain message types, the decoding
conversion (TryFrom<RawMsgConnectionOpenInit> for MsgConnectionOpenInit),
the encoding conversion (From<MsgConnectionOpenInit> for
RawMsgConnectionOpenInit) and the collaborator validators they call.
Machine integers are modelled as Nat with explicit bounds: the wire
delay_period is a u64 (values below 2 ^ 64), and the u128-to-u64 cast in
encode is an explicit reduction modulo 2 ^ 64.
-/

deriving instance DecidableEq for Except

/-- Errors of the identifier grammar validator. -/
inductive IdentifierError where
  | emptyId
  | tooShort (len minLen : Nat)
  | tooLong (len maxLen : Nat)
  | invalidCharacter (s : String)
deriving DecidableEq

/-- Errors of the account-signer validator. -/
inductive SignerError where
  | emptySigner
deriving DecidableEq

/-- Connection-domain errors produced while decoding a
ConnectionOpenInit message or one of its sub-messages. -/
inductive ConnectionError where
  | invalidIdentifier (e : IdentifierError)
  | missingCounterparty
  | emptyCounterpartyPrefix
  | emptyVersions
  | emptyFeatures
  | signer (e : SignerError)
deriving DecidableEq

/-- Modelled from the spec: allowed charset of the identifier grammar
(the generic identifier validator is not under src/; the spec treats it
as a black box that checks non-emptiness, length bounds and charset). -/
def isValidIdChar (c : Char) : Bool :=
  c.isAlphanum || c = '.' || c = '_' || c = '+' || c = '-' ||
    c = '#' || c = '[' || c = ']' || c = '<' || c = '>'

/-- Modelled from the spec: the generic identifier grammar validator
(not under src/). An identifier must be non-empty, have length within
protocol-defined bounds, and use only the allowed charset; on success
the validated identifier is the input string itself. -/
def validateIdentifier (minLen maxLen : Nat) (s : String) :
    Except IdentifierError String :=
  if s.data.isEmpty then Except.error IdentifierError.emptyId
  else if s.data.length < minLen then
    Except.error (IdentifierError.tooShort s.data.length minLen)
  else if maxLen < s.data.length then
    Except.error (IdentifierError.tooLong s.data.length maxLen)
  else if !(s.data.all isValidIdChar) then
    Except.error (IdentifierError.invalidCharacter s)
  else Except.ok s

/-- Modelled from the spec: client identifiers use the identifier
grammar with the client-id length bounds (the bound excludes the
too-short "client" of the spec's test vector). -/
def parseClientId (s : String) : Except IdentifierError String :=
  validateIdentifier 9 64 s

/-- Modelled from the spec: connection identifiers use the identifier
grammar with the connection-id length bounds (maximum 64, excluding the
65-character counterparty connection id of the spec's test vector). -/
def parseConnectionId (s : String) : Except IdentifierError String :=
  validateIdentifier 10 64 s

/-- Modelled from the spec: the account-signer string validator (not
under src/): the signer grammar rejects the empty string. -/
def parseSigner (s : String) : Except SignerError String :=
  if s.data.isEmpty then Except.error SignerError.emptySigner
  else Except.ok s

/-- Rust core::time::Duration: whole seconds plus a sub-second
nanosecond part. In Rust secs is a u64 and nanos a u32 below 10 ^ 9. -/
structure Duration where
  secs : Nat
  nanos : Nat
deriving DecidableEq

/-- Rust Duration::from_nanos on a u64 nanosecond count. -/
def Duration.fromNanos (n : Nat) : Duration :=
  { secs := n / 1000000000, nanos := n % 1000000000 }

/-- Rust Duration::as_nanos: the total nanosecond count (a u128 in
Rust; exact here because the Nat model does not overflow). -/
def Duration.asNanos (d : Duration) : Nat :=
  d.secs * 1000000000 + d.nanos

/-- Wire-format counterparty sub-message: client id and connection id
as plain strings (empty connection id means absent), commitment prefix
as a byte sequence. -/
structure RawCounterparty where
  client_id : String
  connection_id : String
  prefixBytes : List Nat
deriving DecidableEq

/-- Domain counterparty descriptor: validated client identifier,
optional validated connection identifier, non-empty commitment
prefix. -/
structure Counterparty where
  client_id : String
  connection_id : Option String
  prefixBytes : List Nat
deriving DecidableEq

/-- Modelled from the spec: the optional-connection-id step of the
counterparty sub-message validator — an empty wire string means
absent, a non-empty one must satisfy the identifier grammar. -/
def connectionIdField (s : String) :
    Except ConnectionError (Option String) :=
  if s.data.isEmpty then Except.ok none
  else
    match parseConnectionId s with
    | Except.error e => Except.error (ConnectionError.invalidIdentifier e)
    | Except.ok conn => Except.ok (some conn)

/-- Modelled from the spec: the counterparty sub-message validator (not
under src/). It independently validates the counterparty client id
(identifier grammar), the optional connection id, and the commitment
prefix (non-empty); its errors are connection-domain errors, propagated
unchanged by the message decoder. -/
def counterpartyTryFrom (raw : RawCounterparty) :
    Except ConnectionError Counterparty :=
  match parseClientId raw.client_id with
  | Except.error e => Except.error (ConnectionError.invalidIdentifier e)
  | Except.ok cid =>
    match connectionIdField raw.connection_id with
    | Except.error e => Except.error e
    | Except.ok conn =>
      if raw.prefixBytes.isEmpty then
        Except.error ConnectionError.emptyCounterpartyPrefix
      else
        Except.ok { client_id := cid, connection_id := conn,
                    prefixBytes := raw.prefixBytes }

/-- Modelled from the spec: the counterparty encoder (not under src/),
as invoked by the ConnectionOpenInit encoder. Per Invariant I2 the
counterparty connection-id field of the rendered output is forced to
empty, independent of the stored counterparty connection id. -/
def counterpartyInto (c : Counterparty) : RawCounterparty :=
  { client_id := c.client_id, connection_id := "",
    prefixBytes := c.prefixBytes }

/-- Wire-format version sub-message. -/
structure RawVersion where
  identifier : String
  features : List String
deriving DecidableEq

/-- Domain version descriptor. -/
structure Version where
  identifier : String
  features : List String
deriving DecidableEq

/-- Modelled from the spec: the version sub-message validator (not
under src/): version-format rules with feature-set validation (the
identifier and every listed feature must be non-empty); its errors are
connection-domain errors, propagated unchanged. -/
def versionTryFrom (raw : RawVersion) : Except ConnectionError Version :=
  if raw.identifier.data.isEmpty then
    Except.error ConnectionError.emptyVersions
  else if raw.features.any (fun f => f.data.isEmpty) then
    Except.error ConnectionError.emptyFeatures
  else Except.ok { identifier := raw.identifier, features := raw.features }

/-- Modelled from the spec: the version encoder (not under src/), a
structural mirror of the validated version. -/
def versionInto (v : Version) : RawVersion :=
  { identifier := v.identifier, features := v.features }

/-- Wire-format MsgConnectionOpenInit (ibc_proto). delay_period is a
u64 nanosecond count, modelled as a Nat below 2 ^ 64. -/
structure RawMsgConnectionOpenInit where
  client_id : String
  counterparty : Option RawCounterparty
  version : Option RawVersion
  delay_period : Nat
  signer : String
deriving DecidableEq

/-- Domain MsgConnectionOpenInit (conn_open_init.rs, lines 20-27). -/
structure MsgConnectionOpenInit where
  client_id_on_a : String
  counterparty : Counterparty
  version : Option Version
  delay_period : Duration
  signer : String
deriving DecidableEq

/-- TYPE_URL constant (conn_open_init.rs, line 15). -/
def TYPE_URL : String := "/ibc.core.connection.v1.MsgConnectionOpenInit"

/-- Msg::type_url for MsgConnectionOpenInit (conn_open_init.rs,
lines 29-35): returns the TYPE_URL constant for every value. -/
def MsgConnectionOpenInit.type_url (_ : MsgConnectionOpenInit) : String :=
  TYPE_URL

/-- The `msg.version.map(|version| version.try_into()).transpose()?`
step of decode (conn_open_init.rs, line 52). -/
def versionFieldTryFrom (v : Option RawVersion) :
    Except ConnectionError (Option Version) :=
  match v with
  | none => Except.ok none
  | some raw => (versionTryFrom raw).map some

/-- TryFrom<RawMsgConnectionOpenInit> for MsgConnectionOpenInit
(conn_open_init.rs, lines 39-57): field conversions are performed in
declaration order — client_id, counterparty, version, delay_period,
signer — and the first failing validation aborts with its error. -/
def MsgConnectionOpenInit.tryFrom (msg : RawMsgConnectionOpenInit) :
    Except ConnectionError MsgConnectionOpenInit :=
  match parseClientId msg.client_id with
  | Except.error e => Except.error (ConnectionError.invalidIdentifier e)
  | Except.ok cid =>
    match msg.counterparty with
    | none => Except.error ConnectionError.missingCounterparty
    | some rawCp =>
      match counterpartyTryFrom rawCp with
      | Except.error e => Except.error e
      | Except.ok cp =>
        match versionFieldTryFrom msg.version with
        | Except.error e => Except.error e
        | Except.ok ver =>
          match parseSigner msg.signer with
          | Except.error e => Except.error (ConnectionError.signer e)
          | Except.ok s =>
            Except.ok
              { client_id_on_a := cid, counterparty := cp, version := ver,
                delay_period := Duration.fromNanos msg.delay_period,
                signer := s }

/-- From<MsgConnectionOpenInit> for RawMsgConnectionOpenInit
(conn_open_init.rs, lines 59-68): a total struct construction; the
`ics_msg.delay_period.as_nanos() as u64` cast is the reduction of the
total nanosecond count modulo 2 ^ 64. -/
def MsgConnectionOpenInit.into (m : MsgConnectionOpenInit) :
    RawMsgConnectionOpenInit :=
  { client_id := m.client_id_on_a,
    counterparty := some (counterpartyInto m.counterparty),
    version := m.version.map versionInto,
    delay_period := m.delay_period.asNanos % 2 ^ 64,
    signer := m.signer }

/-- A well-formed raw message (after the dummy raw message of the
repository's tests): valid client id, counterparty present with empty
connection id, version present, zero delay, non-empty signer. -/
def rGood : RawMsgConnectionOpenInit :=
  { client_id := "07-tendermint-0",
    counterparty := some { client_id := "07-tendermint-1",
                           connection_id := "",
                           prefixBytes := [105, 98, 99] },
    version := some { identifier := "1", features := [] },
    delay_period := 0,
    signer := "cosmos1abc" }

/-- The domain value rGood decodes to. -/
def mGood : MsgConnectionOpenInit :=
  { client_id_on_a := "07-tendermint-0",
    counterparty := { client_id := "07-tendermint-1",
                      connection_id := none,
                      prefixBytes := [105, 98, 99] },
    version := some { identifier := "1", features := [] },
    delay_period := Duration.fromNanos 0,
    signer := "cosmos1abc" }

/-- rGood with a non-empty (and valid) counterparty connection id. -/
def rConn : RawMsgConnectionOpenInit :=
  { rGood with counterparty := some { client_id := "07-tendermint-1",
                                      connection_id := "connection-0",
                                      prefixBytes := [105, 98, 99] } }

/-- The domain value rConn decodes to: its counterparty connection id
is present. -/
def mConn : MsgConnectionOpenInit :=
  { mGood with counterparty := { client_id := "07-tendermint-1",
                                 connection_id := some "connection-0",
                                 prefixBytes := [105, 98, 99] } }

/-- rGood with the counterparty absent. -/
def rNoCp : RawMsgConnectionOpenInit :=
  { rGood with counterparty := none }

/-- rGood with the version absent. -/
def rNoVer : RawMsgConnectionOpenInit :=
  { rGood with version := none }

/-- The domain value rNoVer decodes to. -/
def mNoVer : MsgConnectionOpenInit :=
  { mGood with version := none }

/-- A directly constructed domain value whose duration holds the
largest Rust-representable second count, so its total nanosecond count
is at least 2 ^ 64. -/
def mBig : MsgConnectionOpenInit :=
  { mGood with delay_period := { secs := 2 ^ 64 - 1, nanos := 0 } }

theorem Duration.asNanos_fromNanos (n : Nat) :
    (Duration.fromNanos n).asNanos = n := by
  show n / 1000000000 * 1000000000 + n % 1000000000 = n
  omega

theorem validateIdentifier_ok {a b : Nat} {s c : String}
    (h : validateIdentifier a b s = Except.ok c) : c = s := by
  unfold validateIdentifier at h
  split_ifs at h <;> simp_all

theorem parseClientId_idem {s c : String}
    (h : parseClientId s = Except.ok c) : parseClientId c = Except.ok c := by
  have hc : c = s := validateIdentifier_ok h
  subst hc
  exact h

theorem parseSigner_ok {s c : String} (h : parseSigner s = Except.ok c) :
    c = s := by
  unfold parseSigner at h
  split_ifs at h <;> simp_all

theorem parseSigner_idem {s c : String}
    (h : parseSigner s = Except.ok c) : parseSigner c = Except.ok c := by
  have hc : c = s := parseSigner_ok h
  subst hc
  exact h

theorem versionTryFrom_ok {raw : RawVersion} {v : Version}
    (h : versionTryFrom raw = Except.ok v) : versionInto v = raw := by
  unfold versionTryFrom at h
  split_ifs at h
  rw [Except.ok.injEq] at h
  subst h
  rfl

theorem versionTryFrom_into {raw : RawVersion} {v : Version}
    (h : versionTryFrom raw = Except.ok v) :
    versionTryFrom (versionInto v) = Except.ok v := by
  rw [versionTryFrom_ok h]
  exact h

theorem versionFieldTryFrom_into {ov : Option RawVersion}
    {x : Option Version} (h : versionFieldTryFrom ov = Except.ok x) :
    versionFieldTryFrom (Option.map versionInto x) = Except.ok x := by
  cases ov with
  | none =>
    simp only [versionFieldTryFrom, Except.ok.injEq] at h
    subst h
    rfl
  | some raw =>
    simp only [versionFieldTryFrom] at h
    cases hv : versionTryFrom raw with
    | error e => rw [hv] at h; simp [Except.map] at h
    | ok v =>
      rw [hv] at h
      simp only [Except.map, Except.ok.injEq] at h
      subst h
      have hgoal : versionFieldTryFrom (some (versionInto v)) =
          Except.ok (some v) := by
        simp only [versionFieldTryFrom, versionTryFrom_into hv, Except.map]
      exact hgoal

theorem connectionIdField_empty : connectionIdField ("") = Except.ok none :=
  rfl

theorem connectionIdField_error_shape {s : String} {e : ConnectionError}
    (h : connectionIdField s = Except.error e) :
    e ≠ ConnectionError.missingCounterparty := by
  unfold connectionIdField at h
  split_ifs at h
  cases hco : parseConnectionId s with
  | error e0 =>
    rw [hco] at h
    simp at h
    subst h
    simp
  | ok c => rw [hco] at h; simp at h

theorem counterpartyTryFrom_ok {raw : RawCounterparty} {cp : Counterparty}
    (h : counterpartyTryFrom raw = Except.ok cp) :
    cp.client_id = raw.client_id ∧ cp.prefixBytes = raw.prefixBytes ∧
      raw.prefixBytes.isEmpty = false ∧
      parseClientId raw.client_id = Except.ok raw.client_id ∧
      connectionIdField raw.connection_id = Except.ok cp.connection_id := by
  unfold counterpartyTryFrom at h
  cases hc : parseClientId raw.client_id with
  | error e => rw [hc] at h; simp at h
  | ok cid =>
    have hcid : cid = raw.client_id := validateIdentifier_ok hc
    subst hcid
    rw [hc] at h
    cases hcf : connectionIdField raw.connection_id with
    | error e => rw [hcf] at h; simp at h
    | ok conn =>
      rw [hcf] at h
      split_ifs at h with h1
      rw [Except.ok.injEq] at h
      subst h
      simp_all

theorem counterpartyTryFrom_into {raw : RawCounterparty} {cp : Counterparty}
    (h : counterpartyTryFrom raw = Except.ok cp) :
    counterpartyTryFrom (counterpartyInto cp) =
      Except.ok { client_id := cp.client_id, connection_id := none,
                  prefixBytes := cp.prefixBytes } := by
  obtain ⟨h1, h2, h3, h4, h5⟩ := counterpartyTryFrom_ok h
  unfold counterpartyTryFrom counterpartyInto
  simp [h1, h2, h3, h4, connectionIdField_empty]

theorem counterpartyTryFrom_error_shape {raw : RawCounterparty}
    {e : ConnectionError} (h : counterpartyTryFrom raw = Except.error e) :
    e ≠ ConnectionError.missingCounterparty := by
  unfold counterpartyTryFrom at h
  cases hc : parseClientId raw.client_id with
  | error e0 =>
    rw [hc] at h
    simp only [Except.error.injEq] at h
    subst h
    simp
  | ok cid =>
    rw [hc] at h
    cases hcf : connectionIdField raw.connection_id with
    | error e0 =>
      rw [hcf] at h
      simp only [Except.error.injEq] at h
      subst h
      exact connectionIdField_error_shape hcf
    | ok conn =>
      rw [hcf] at h
      split_ifs at h
      simp only [Except.error.injEq] at h
      subst h
      simp

theorem versionFieldTryFrom_error_shape {ov : Option RawVersion}
    {e : ConnectionError} (h : versionFieldTryFrom ov = Except.error e) :
    e ≠ ConnectionError.missingCounterparty := by
  cases ov with
  | none => simp [versionFieldTryFrom] at h
  | some raw =>
    simp only [versionFieldTryFrom] at h
    cases hv : versionTryFrom raw with
    | ok v => rw [hv] at h; simp [Except.map] at h
    | error e0 =>
      rw [hv] at h
      simp only [Except.map, Except.error.injEq] at h
      subst h
      unfold versionTryFrom at hv
      split_ifs at hv
      · rw [Except.error.injEq] at hv
        subst hv
        simp
      · rw [Except.error.injEq] at hv
        subst hv
        simp

theorem tryFrom_ok_iff (r : RawMsgConnectionOpenInit)
    (m : MsgConnectionOpenInit) :
    MsgConnectionOpenInit.tryFrom r = Except.ok m ↔
      ∃ rawCp, r.counterparty = some rawCp ∧
        parseClientId r.client_id = Except.ok m.client_id_on_a ∧
        counterpartyTryFrom rawCp = Except.ok m.counterparty ∧
        versionFieldTryFrom r.version = Except.ok m.version ∧
        Duration.fromNanos r.delay_period = m.delay_period ∧
        parseSigner r.signer = Except.ok m.signer := by
  obtain ⟨mc, mcp, mv, md, ms⟩ := m
  unfold MsgConnectionOpenInit.tryFrom
  cases hc : parseClientId r.client_id with
  | error e => simp
  | ok cid =>
    cases h2 : r.counterparty with
    | none => simp
    | some rawCp =>
      cases h3 : counterpartyTryFrom rawCp with
      | error e => simp [h3]
      | ok cp =>
        cases h4 : versionFieldTryFrom r.version with
        | error e => simp [h3]
        | ok ver =>
          cases h5 : parseSigner r.signer with
          | error e => simp [h3]
          | ok s => simp [h3]

theorem tryFrom_set_delay (r : RawMsgConnectionOpenInit) (n : Nat) :
    MsgConnectionOpenInit.tryFrom { r with delay_period := n } =
      Except.map (fun m => { m with delay_period := Duration.fromNanos n })
        (MsgConnectionOpenInit.tryFrom r) := by
  unfold MsgConnectionOpenInit.tryFrom
  cases hc : parseClientId r.client_id with
  | error e => simp [Except.map]
  | ok cid =>
    cases h2 : r.counterparty with
    | none => simp [Except.map]
    | some rawCp =>
      cases h3 : counterpartyTryFrom rawCp with
      | error e => simp [Except.map, h3]
      | ok cp =>
        cases h4 : versionFieldTryFrom r.version with
        | error e => simp [Except.map, h3, h4]
        | ok ver =>
          cases h5 : parseSigner r.signer with
          | error e => simp [Except.map, h3, h4, h5]
          | ok s => simp [Except.map, h3, h4, h5]

/-- C1: for every domain MsgConnectionOpenInit — including one whose
counterparty holds a non-empty connection identifier — the encoder
(From impl, conn_open_init.rs lines 59-68) produces a raw message whose
counterparty connection-id field is empty, independent of the stored
counterparty connection id. -/
theorem c1_encode_forces_empty_counterparty_connection_id
    (m : MsgConnectionOpenInit) :
    ∃ rawCp, (MsgConnectionOpenInit.into m).counterparty = some rawCp ∧
      rawCp.connection_id = "" :=
  ⟨counterpartyInto m.counterparty, rfl, rfl⟩

/-- C5: the encoder (From impl, conn_open_init.rs lines 59-68) is
total: on every domain value it returns the raw message given by this
closed constructor application, with no failure or error branch. -/
theorem c5_encode_total (m : MsgConnectionOpenInit) :
    MsgConnectionOpenInit.into m =
      { client_id := m.client_id_on_a,
        counterparty := some (counterpartyInto m.counterparty),
        version := Option.map versionInto m.version,
        delay_period := m.delay_period.asNanos % 2 ^ 64,
        signer := m.signer } :=
  rfl

/-- C8: type_url returns the fixed constant string
"/ibc.core.connection.v1.MsgConnectionOpenInit" (the TYPE_URL
constant) for every MsgConnectionOpenInit value, independent of its
contents. -/
theorem c8_type_url_constant (m : MsgConnectionOpenInit) :
    m.type_url = "/ibc.core.connection.v1.MsgConnectionOpenInit" ∧
    m.type_url = TYPE_URL :=
  ⟨rfl, rfl⟩

/-- C10: encode converts the domain delay_period via
`as_nanos() as u64`, i.e. reduction of the total nanosecond count
modulo 2 ^ 64; the encoded field equals the total nanosecond count
exactly when that count is below 2 ^ 64, and for a duration of 2 ^ 64
nanoseconds or more the value silently wraps instead of failing. -/
theorem c10_encode_delay_truncates_mod_u64 (m : MsgConnectionOpenInit) :
    (MsgConnectionOpenInit.into m).delay_period =
      m.delay_period.asNanos % 2 ^ 64 ∧
    ((MsgConnectionOpenInit.into m).delay_period = m.delay_period.asNanos ↔
      m.delay_period.asNanos < 2 ^ 64) ∧
    (2 ^ 64 ≤ m.delay_period.asNanos →
      (MsgConnectionOpenInit.into m).delay_period ≠
        m.delay_period.asNanos) := by
  have hl : (MsgConnectionOpenInit.into m).delay_period =
      m.delay_period.asNanos % 2 ^ 64 := rfl
  have hpos : 0 < 2 ^ 64 := Nat.pos_pow_of_pos 64 (by norm_num)
  refine ⟨hl, ?_, ?_⟩
  · rw [hl]
    constructor
    · intro h
      rw [← h]
      exact Nat.mod_lt _ hpos
    · intro h
      exact Nat.mod_eq_of_lt h
  · intro hge h
    rw [hl] at h
    have hlt := Nat.mod_lt m.delay_period.asNanos hpos
    omega

/-- C10 witness: at the concrete domain value mBig, whose duration is
at least 2 ^ 64 nanoseconds, the encoded delay field differs from the
true nanosecond count (it wrapped). -/
theorem c10_witness :
    (MsgConnectionOpenInit.into mBig).delay_period ≠
      mBig.delay_period.asNanos :=
  (c10_encode_delay_truncates_mod_u64 mBig).2.2 (by decide)

/-- C9: the encoder always emits a present (Some) counterparty field,
so re-decoding an encoded message can never fail with
MissingCounterparty. -/
theorem c9_encode_counterparty_present (m : MsgConnectionOpenInit) :
    (MsgConnectionOpenInit.into m).counterparty ≠ none ∧
    MsgConnectionOpenInit.tryFrom (MsgConnectionOpenInit.into m) ≠
      Except.error ConnectionError.missingCounterparty := by
  constructor
  · intro hcontra
    simp [MsgConnectionOpenInit.into] at hcontra
  · intro h
    unfold MsgConnectionOpenInit.tryFrom at h
    simp only [MsgConnectionOpenInit.into] at h
    cases hc : parseClientId m.client_id_on_a with
    | error e => rw [hc] at h; simp at h
    | ok cid =>
      rw [hc] at h
      cases h3 : counterpartyTryFrom (counterpartyInto m.counterparty) with
      | error e =>
        rw [h3] at h
        simp at h
        exact counterpartyTryFrom_error_shape h3 h
      | ok cp =>
        rw [h3] at h
        cases h4 : versionFieldTryFrom (Option.map versionInto m.version) with
        | error e =>
          rw [h4] at h
          simp at h
          exact versionFieldTryFrom_error_shape h4 h
        | ok ver =>
          rw [h4] at h
          cases h5 : parseSigner m.signer with
          | error e => rw [h5] at h; simp at h
          | ok s => rw [h5] at h; simp at h

/-- C9 witness: at the concrete domain value mGood, the encoded
message has a present counterparty and its re-decode is not a
MissingCounterparty error. -/
theorem c9_witness :
    (MsgConnectionOpenInit.into mGood).counterparty ≠ none ∧
    MsgConnectionOpenInit.tryFrom (MsgConnectionOpenInit.into mGood) ≠
      Except.error ConnectionError.missingCounterparty :=
  c9_encode_counterparty_present mGood

theorem versionFieldTryFrom_ok_iff (ov : Option RawVersion) :
    (∃ x, versionFieldTryFrom ov = Except.ok x) ↔
      ∀ v, ov = some v → ∃ ver, versionTryFrom v = Except.ok ver := by
  cases ov with
  | none => simp [versionFieldTryFrom]
  | some raw =>
    simp only [versionFieldTryFrom, Option.some.injEq]
    cases hv : versionTryFrom raw with
    | error e => simp [Except.map, hv]
    | ok v => simp [Except.map, hv]

theorem versionFieldTryFrom_some_error {v : RawVersion}
    {e : ConnectionError} (h : versionTryFrom v = Except.error e) :
    versionFieldTryFrom (some v) = Except.error e := by
  simp [versionFieldTryFrom, h, Except.map]

/-- C2: for every raw message on which decode succeeds (delay within
the wire u64 range), re-encoding the decoded value reproduces the
client_id, version, delay_period and signer fields of the input, and
the counterparty's client id and prefix, while the counterparty
connection-id field of the result is empty regardless of its value in
the input. -/
theorem c2_roundtrip_modulo_normalization (r : RawMsgConnectionOpenInit)
    (m : MsgConnectionOpenInit) (hu : r.delay_period < 2 ^ 64)
    (h : MsgConnectionOpenInit.tryFrom r = Except.ok m) :
    (MsgConnectionOpenInit.into m).client_id = r.client_id ∧
    (MsgConnectionOpenInit.into m).version = r.version ∧
    (MsgConnectionOpenInit.into m).delay_period = r.delay_period ∧
    (MsgConnectionOpenInit.into m).signer = r.signer ∧
    ∃ rawCp rawCp2, r.counterparty = some rawCp ∧
      (MsgConnectionOpenInit.into m).counterparty = some rawCp2 ∧
      rawCp2.client_id = rawCp.client_id ∧
      rawCp2.prefixBytes = rawCp.prefixBytes ∧
      rawCp2.connection_id = "" := by
  rw [tryFrom_ok_iff] at h
  obtain ⟨rawCp, h2, hc, h3, h4, hd, h5⟩ := h
  obtain ⟨k1, k2, k3, k4, k5⟩ := counterpartyTryFrom_ok h3
  refine ⟨?_, ?_, ?_, ?_, rawCp, counterpartyInto m.counterparty, h2, rfl,
    ?_, ?_, rfl⟩
  · show m.client_id_on_a = r.client_id
    exact validateIdentifier_ok hc
  · show Option.map versionInto m.version = r.version
    cases hv : r.version with
    | none =>
      rw [hv] at h4
      simp only [versionFieldTryFrom, Except.ok.injEq] at h4
      rw [← h4]
      rfl
    | some raw =>
      rw [hv] at h4
      simp only [versionFieldTryFrom] at h4
      cases hvv : versionTryFrom raw with
      | error e => rw [hvv] at h4; simp [Except.map] at h4
      | ok v =>
        rw [hvv] at h4
        simp only [Except.map, Except.ok.injEq] at h4
        rw [← h4]
        simp [versionTryFrom_ok hvv]
  · show m.delay_period.asNanos % 2 ^ 64 = r.delay_period
    rw [← hd, Duration.asNanos_fromNanos]
    exact Nat.mod_eq_of_lt hu
  · show m.signer = r.signer
    exact parseSigner_ok h5
  · show m.counterparty.client_id = rawCp.client_id
    exact k1
  · show m.counterparty.prefixBytes = rawCp.prefixBytes
    exact k2

/-- C2 witness: the round-trip property instantiated at the concrete
raw message rGood, which decodes to mGood. -/
theorem c2_witness :
    (MsgConnectionOpenInit.into mGood).client_id = rGood.client_id ∧
    (MsgConnectionOpenInit.into mGood).version = rGood.version ∧
    (MsgConnectionOpenInit.into mGood).delay_period = rGood.delay_period ∧
    (MsgConnectionOpenInit.into mGood).signer = rGood.signer ∧
    ∃ rawCp rawCp2, rGood.counterparty = some rawCp ∧
      (MsgConnectionOpenInit.into mGood).counterparty = some rawCp2 ∧
      rawCp2.client_id = rawCp.client_id ∧
      rawCp2.prefixBytes = rawCp.prefixBytes ∧
      rawCp2.connection_id = "" :=
  c2_roundtrip_modulo_normalization rGood mGood (by decide) (by decide)

/-- C6: a raw message with no version that decodes successfully yields
a domain value whose version field is absent, and re-encoding that
domain value leaves the wire version field absent again. -/
theorem c6_version_absent_roundtrip (r : RawMsgConnectionOpenInit)
    (m : MsgConnectionOpenInit) (hv : r.version = none)
    (h : MsgConnectionOpenInit.tryFrom r = Except.ok m) :
    m.version = none ∧ (MsgConnectionOpenInit.into m).version = none := by
  rw [tryFrom_ok_iff] at h
  obtain ⟨rawCp, h2, hc, h3, h4, hd, h5⟩ := h
  rw [hv] at h4
  simp only [versionFieldTryFrom, Except.ok.injEq] at h4
  refine ⟨h4.symm, ?_⟩
  show Option.map versionInto m.version = none
  rw [← h4]
  rfl

/-- C6 witness: at the concrete raw message rNoVer (no version), the
decoded value mNoVer has no version and re-encodes without one. -/
theorem c6_witness :
    mNoVer.version = none ∧
    (MsgConnectionOpenInit.into mNoVer).version = none :=
  c6_version_absent_roundtrip rNoVer mNoVer rfl (by decide)

/-- C4: converting the wire delay_period (any u64 nanosecond count n)
to the domain duration always succeeds and is exact — the resulting
duration's total nanosecond count is n — and this step never causes
decode to fail: replacing the delay field of any raw message leaves
decode's success unchanged, and on success the decoded delay is
exactly Duration.fromNanos n. -/
theorem c4_delay_period_conversion (n : Nat) (hn : n < 2 ^ 64)
    (r : RawMsgConnectionOpenInit) :
    (Duration.fromNanos n).asNanos = n ∧
    ((∃ m, MsgConnectionOpenInit.tryFrom { r with delay_period := n } =
        Except.ok m) ↔
      ∃ m, MsgConnectionOpenInit.tryFrom r = Except.ok m) ∧
    ∀ m, MsgConnectionOpenInit.tryFrom { r with delay_period := n } =
        Except.ok m → m.delay_period = Duration.fromNanos n := by
  refine ⟨Duration.asNanos_fromNanos n, ?_, ?_⟩
  · rw [tryFrom_set_delay]
    cases htf : MsgConnectionOpenInit.tryFrom r with
    | error e => simp [Except.map]
    | ok m0 => simp [Except.map]
  · intro m hm
    rw [tryFrom_set_delay] at hm
    cases htf : MsgConnectionOpenInit.tryFrom r with
    | error e => rw [htf] at hm; simp [Except.map] at hm
    | ok m0 =>
      rw [htf] at hm
      simp only [Except.map, Except.ok.injEq] at hm
      rw [← hm]

/-- C4 witness: the exactness part instantiated at the u64 value 5 and
the raw message rGood. -/
theorem c4_witness : (Duration.fromNanos 5).asNanos = 5 :=
  (c4_delay_period_conversion 5 (by norm_num) rGood).1

/-- C3: decode returns an error exactly when one of its field
validations fails, and the error identifies the field that caused the
failure, with field checks performed in declaration order (client_id,
counterparty, version, signer — the first failure wins, matching the
sequential `?` operators of try_from): InvalidIdentifier wrapping the
grammar error for a bad client_id; MissingCounterparty for an absent
counterparty; the counterparty validator's error propagated unchanged;
the version validator's error propagated unchanged; Signer wrapping
the signer error; and on any error no domain value is produced. -/
theorem c3_decode_error_taxonomy (r : RawMsgConnectionOpenInit) :
    ((∃ m, MsgConnectionOpenInit.tryFrom r = Except.ok m) ↔
      ((∃ c, parseClientId r.client_id = Except.ok c) ∧
       (∃ rawCp cp, r.counterparty = some rawCp ∧
          counterpartyTryFrom rawCp = Except.ok cp) ∧
       (∀ v, r.version = some v →
          ∃ ver, versionTryFrom v = Except.ok ver) ∧
       (∃ s, parseSigner r.signer = Except.ok s))) ∧
    (∀ e, parseClientId r.client_id = Except.error e →
       MsgConnectionOpenInit.tryFrom r =
         Except.error (ConnectionError.invalidIdentifier e)) ∧
    ((∃ c, parseClientId r.client_id = Except.ok c) →
       r.counterparty = none →
       MsgConnectionOpenInit.tryFrom r =
         Except.error ConnectionError.missingCounterparty) ∧
    (∀ rawCp e, (∃ c, parseClientId r.client_id = Except.ok c) →
       r.counterparty = some rawCp →
       counterpartyTryFrom rawCp = Except.error e →
       MsgConnectionOpenInit.tryFrom r = Except.error e) ∧
    (∀ rawCp cp v e, (∃ c, parseClientId r.client_id = Except.ok c) →
       r.counterparty = some rawCp →
       counterpartyTryFrom rawCp = Except.ok cp →
       r.version = some v →
       versionTryFrom v = Except.error e →
       MsgConnectionOpenInit.tryFrom r = Except.error e) ∧
    (∀ e, (∃ c, parseClientId r.client_id = Except.ok c) →
       (∃ rawCp cp, r.counterparty = some rawCp ∧
          counterpartyTryFrom rawCp = Except.ok cp) →
       (∀ v, r.version = some v →
          ∃ ver, versionTryFrom v = Except.ok ver) →
       parseSigner r.signer = Except.error e →
       MsgConnectionOpenInit.tryFrom r =
         Except.error (ConnectionError.signer e)) ∧
    (∀ e, MsgConnectionOpenInit.tryFrom r = Except.error e →
       ¬ ∃ m, MsgConnectionOpenInit.tryFrom r = Except.ok m) := by
  refine ⟨?_, ?_, ?_, ?_, ?_, ?_, ?_⟩
  · constructor
    · rintro ⟨m, hm⟩
      rw [tryFrom_ok_iff] at hm
      obtain ⟨rawCp, h2, hc, h3, h4, hd, h5⟩ := hm
      exact ⟨⟨_, hc⟩, ⟨rawCp, _, h2, h3⟩,
        (versionFieldTryFrom_ok_iff r.version).mp ⟨_, h4⟩, ⟨_, h5⟩⟩
    · rintro ⟨⟨c, hc⟩, ⟨rawCp, cp, h2, h3⟩, hver, ⟨s, h5⟩⟩
      obtain ⟨ov, h4⟩ := (versionFieldTryFrom_ok_iff r.version).mpr hver
      refine ⟨⟨c, cp, ov, Duration.fromNanos r.delay_period, s⟩, ?_⟩
      rw [tryFrom_ok_iff]
      exact ⟨rawCp, h2, hc, h3, h4, rfl, h5⟩
  · intro e he
    simp only [MsgConnectionOpenInit.tryFrom, he]
  · rintro ⟨c, hc⟩ hnone
    simp only [MsgConnectionOpenInit.tryFrom, hc, hnone]
  · rintro rawCp e ⟨c, hc⟩ hsome herr
    simp only [MsgConnectionOpenInit.tryFrom, hc, hsome, herr]
  · rintro rawCp cp v e ⟨c, hc⟩ hsome hcp hv herr
    simp only [MsgConnectionOpenInit.tryFrom, hc, hsome, hcp, hv,
      versionFieldTryFrom_some_error herr]
  · rintro e ⟨c, hc⟩ ⟨rawCp, cp, h2, h3⟩ hver herr
    obtain ⟨ov, h4⟩ := (versionFieldTryFrom_ok_iff r.version).mpr hver
    simp only [MsgConnectionOpenInit.tryFrom, hc, h2, h3, h4, herr]
  · rintro e he ⟨m, hm⟩
    rw [he] at hm
    simp at hm

/-- C3 witness: the MissingCounterparty branch instantiated at the
concrete raw message rNoCp, whose client id is valid but whose
counterparty is absent. -/
theorem c3_witness :
    MsgConnectionOpenInit.tryFrom rNoCp =
      Except.error ConnectionError.missingCounterparty :=
  (c3_decode_error_taxonomy rNoCp).2.2.1 ⟨("07-tendermint-0"), by decide⟩ rfl

/-- C7 counterexample: at the concrete raw message rConn, whose
counterparty carries the valid non-empty connection id
"connection-0", decode succeeds with a domain value (mConn) holding
that connection id; re-decoding its encoding succeeds but yields mGood,
whose counterparty connection id has been cleared to absent — a
different domain value. So decode-encode-decode is not the identity on
decode's image. -/
theorem c7_counterexample :
    MsgConnectionOpenInit.tryFrom rConn = Except.ok mConn ∧
    MsgConnectionOpenInit.tryFrom (MsgConnectionOpenInit.into mConn) =
      Except.ok mGood ∧
    mGood ≠ mConn :=
  ⟨by decide, by decide, by decide⟩

/-- C7 (amended): for every raw message on which decode succeeds
(delay within the wire u64 range), decoding again after encoding
succeeds and agrees with the first decoded value on every field except
the counterparty connection id, which is cleared to absent in the
re-decoded value; when the first decoded value's counterparty
connection id is already absent, the two domain values are equal. -/
theorem c7_amended_redecode_normalizes (r : RawMsgConnectionOpenInit)
    (m : MsgConnectionOpenInit) (hu : r.delay_period < 2 ^ 64)
    (h : MsgConnectionOpenInit.tryFrom r = Except.ok m) :
    ∃ m2, MsgConnectionOpenInit.tryFrom (MsgConnectionOpenInit.into m) =
        Except.ok m2 ∧
      m2.client_id_on_a = m.client_id_on_a ∧
      m2.version = m.version ∧
      m2.delay_period = m.delay_period ∧
      m2.signer = m.signer ∧
      m2.counterparty.client_id = m.counterparty.client_id ∧
      m2.counterparty.prefixBytes = m.counterparty.prefixBytes ∧
      m2.counterparty.connection_id = none ∧
      (m.counterparty.connection_id = none → m2 = m) := by
  rw [tryFrom_ok_iff] at h
  obtain ⟨rawCp, h2, hc, h3, h4, hd, h5⟩ := h
  refine ⟨{ m with counterparty :=
              { client_id := m.counterparty.client_id,
                connection_id := none,
                prefixBytes := m.counterparty.prefixBytes } },
    ?_, rfl, rfl, rfl, rfl, rfl, rfl, rfl, ?_⟩
  · rw [tryFrom_ok_iff]
    refine ⟨counterpartyInto m.counterparty, rfl, ?_, ?_, ?_, ?_, ?_⟩
    · show parseClientId m.client_id_on_a = Except.ok m.client_id_on_a
      exact parseClientId_idem hc
    · exact counterpartyTryFrom_into h3
    · show versionFieldTryFrom (Option.map versionInto m.version) =
        Except.ok m.version
      exact versionFieldTryFrom_into h4
    · show Duration.fromNanos (m.delay_period.asNanos % 2 ^ 64) =
        m.delay_period
      rw [← hd, Duration.asNanos_fromNanos, Nat.mod_eq_of_lt hu]
    · show parseSigner m.signer = Except.ok m.signer
      exact parseSigner_idem h5
  · intro hnone
    have hcp : ({ client_id := m.counterparty.client_id,
                  connection_id := none,
                  prefixBytes := m.counterparty.prefixBytes } :
          Counterparty) = m.counterparty := by
      rw [← hnone]
    rw [hcp]

/-- C7 witness for the amended statement: instantiated at the concrete
raw message rGood, whose counterparty connection id is empty, so the
re-decoded value equals the first decoded value. -/
theorem c7_witness :
    ∃ m2, MsgConnectionOpenInit.tryFrom (MsgConnectionOpenInit.into mGood) =
        Except.ok m2 ∧
      m2.client_id_on_a = mGood.client_id_on_a ∧
      m2.version = mGood.version ∧
      m2.delay_period = mGood.delay_period ∧
      m2.signer = mGood.signer ∧
      m2.counterparty.client_id = mGood.counterparty.client_id ∧
      m2.counterparty.prefixBytes = mGood.counterparty.prefixBytes ∧
      m2.counterparty.connection_id = none ∧
      (mGood.counterparty.connection_id = none → m2 = mGood) :=
  c7_amended_redecode_normalizes rGood mGood (by decide) (by decide)
